import Mathlib

/-!
Shallow embedding of the scrape-orchestration core of the RAT Chrome
extension (src/background.js, src/content.js): the session/task data
model, the task scheduler and pagination loop of processQueue, the
CAPTCHA handler, the transient-error retry policy, the rank-offset
logic of the content script's scrapeData/extractOrganic, and the
deleteSession store transaction.  Theorems below settle the
specification's claims C1-C10 against these definitions.
-/

namespace RAT

/-- Session status strings used in background.js
(OPEN / RUNNING / PAUSED / PAUSED_CAPTCHA / DONE). -/
inductive SessionStatus
  | OPEN | RUNNING | PAUSED | PAUSED_CAPTCHA | DONE
  deriving DecidableEq, Repr

/-- Task status strings used in background.js
(OPEN / DONE / FAILED / CANCELLED). -/
inductive TaskStatus
  | OPEN | DONE | FAILED | CANCELLED
  deriving DecidableEq, Repr

/-- Engine configuration carried by a task (createNewSession payload
configs entries: engineName, countryCode, countryName, langCode,
domain, optional location). -/
structure EngineConfig where
  engineName : String
  countryCode : String
  countryName : String
  langCode : String
  domain : String
  location : Option String
  deriving DecidableEq, Repr

/-- Organic result entry pushed by extractOrganic (content.js 349-354):
rank, title, url, snippet. -/
structure OrganicEntry where
  rank : Nat
  title : String
  url : String
  snippet : String
  deriving DecidableEq, Repr

/-- Ad entry pushed by extractAd (content.js 357-368). -/
structure AdEntry where
  rank : Nat
  title : String
  url : String
  snippet : String
  deriving DecidableEq, Repr

/-- One source of the AI overview block (content.js 298). -/
structure AiSource where
  title : String
  url : String
  deriving DecidableEq, Repr

/-- AI overview block returned by scrapeData (content.js 195-199). -/
structure AiOverview where
  found : Bool
  text_full : String
  sources : List AiSource
  deriving DecidableEq, Repr

/-- Structured result set of one scraped page, the `data` object of the
SCRAPE_SERP response (content.js scrapeData result shape). -/
structure PageResults where
  organic : List OrganicEntry
  ads : List AdEntry
  ai_overview : AiOverview
  deriving DecidableEq, Repr

/-- Persisted page record pushed by processQueue (background.js 637):
pageNumber plus the (trimmed) result set. -/
structure Page where
  pageNumber : Nat
  results : PageResults
  deriving DecidableEq, Repr

/-- Task record as created by createNewSession / addItemsToSession
(background.js 491-493): term, config, status, pages, totalOrganic,
retryCount. -/
structure Task where
  term : String
  config : EngineConfig
  status : TaskStatus
  pages : List Page
  totalOrganic : Nat
  retryCount : Nat
  deriving DecidableEq, Repr

/-- Session settings object (background.js 495-500). -/
structure Settings where
  saveScreenshots : Bool
  saveHtml : Bool
  useProxies : Bool
  proxyList : List String
  deriving DecidableEq, Repr

/-- Session record as created by createNewSession (background.js
502-504); globalCount is the per-task organic quota. -/
structure Session where
  id : String
  name : String
  status : SessionStatus
  tasks : List Task
  currentIndex : Nat
  globalCount : Nat
  delaysMin : Nat
  delaysMax : Nat
  settings : Settings
  originalQueries : List String
  originalConfigs : List EngineConfig
  deriving DecidableEq, Repr

/-- MAX_PAGES constant (background.js line 20). -/
def MAX_PAGES : Nat := 15

/-- RETRY_DELAYS table in minutes (background.js line 23). -/
def RETRY_DELAYS : List Nat := [5, 15, 30, 60]

/-- Embedding of `session.tasks.findIndex(t => t.status === "OPEN")`
(background.js 545), returning the position of the first OPEN task. -/
def firstOpenIdx : List Task → Option Nat
  | [] => none
  | t :: ts =>
    if t.status = TaskStatus.OPEN then some 0
    else (firstOpenIdx ts).map (· + 1)

/-- Task-selection prefix of processQueue (background.js 541-558): a
session that is not RUNNING is left alone; with no OPEN task the
session is marked DONE and no task is selected; otherwise currentIndex
is set to the first OPEN index and that index is selected. -/
def scheduleNext (s : Session) : Session × Option Nat :=
  if s.status = SessionStatus.RUNNING then
    match firstOpenIdx s.tasks with
    | none => ({ s with status := SessionStatus.DONE }, none)
    | some i => ({ s with currentIndex := i }, some i)
  else (s, none)

/-- Embedding of handleRetry (background.js 867-878); `paused` is the
result of the initial isPaused check.  On a transient error with the
session not paused, retryCount is incremented; above 3 the task is
marked FAILED, otherwise it is set back to OPEN. -/
def handleRetry (paused : Bool) (task : Task) : Task :=
  if paused then task
  else
    let t := { task with retryCount := task.retryCount + 1 }
    if 3 < t.retryCount then { t with status := TaskStatus.FAILED }
    else { t with status := TaskStatus.OPEN }

/-- Embedding of resumeSession (background.js 334-343): the session
status is set to RUNNING (then processQueue is re-entered). -/
def resumeSession (s : Session) : Session :=
  { s with status := SessionStatus.RUNNING }

/-- Embedding of isPaused (background.js 193-196): a session is paused
when its stored status is anything but RUNNING. -/
def isPausedSession (s : Session) : Bool :=
  decide (s.status ≠ SessionStatus.RUNNING)

/-- Per-session CAPTCHA-recovery state: the session status plus the
chrome.storage counters proxy_try_<id> (proxyTry) and retry_<id>
(retryWait), and the proxy settings read from the session. -/
structure CaptchaState where
  sessionStatus : SessionStatus
  proxyTry : Nat
  retryWait : Nat
  useProxies : Bool
  proxyList : List String
  deriving DecidableEq, Repr

/-- Observable action of one handleCaptchaEvent call: `ignored` (the
session was not RUNNING), `rotateProxy` (fast path: a random proxy is
activated, the tab is closed and the session resumes immediately; no
alarm is created), or `wait reverted minutes` (a retry_session alarm
is created for `minutes`; `reverted` records whether the proxy was
deactivated and the connection reverted to direct first). -/
inductive CaptchaAction
  | ignored
  | rotateProxy
  | wait (revertedToDirect : Bool) (minutes : Nat)
  deriving DecidableEq, Repr

/-- Embedding of handleCaptchaEvent (background.js 244-324).  The
session is marked PAUSED_CAPTCHA; if proxies are enabled, the list is
non-empty and proxyTry < 3, a random proxy is activated, proxyTry is
incremented and the session is resumed (status RUNNING) with no alarm;
otherwise, if proxyTry >= 3 the proxy is deactivated and proxyTry
reset to 0, and in either case an alarm is created for
RETRY_DELAYS[min retryWait 3] minutes. -/
def handleCaptchaEvent (st : CaptchaState) : CaptchaState × CaptchaAction :=
  if st.sessionStatus = SessionStatus.RUNNING then
    let s1 := { st with sessionStatus := SessionStatus.PAUSED_CAPTCHA }
    if s1.useProxies = true ∧ 0 < s1.proxyList.length ∧ s1.proxyTry < 3 then
      ({ s1 with proxyTry := s1.proxyTry + 1, sessionStatus := SessionStatus.RUNNING },
       CaptchaAction.rotateProxy)
    else
      let s2 := if 3 ≤ s1.proxyTry then { s1 with proxyTry := 0 } else s1
      let lvl := min s1.retryWait (RETRY_DELAYS.length - 1)
      (s2, CaptchaAction.wait (decide (3 ≤ s1.proxyTry)) (RETRY_DELAYS.getD lvl 0))
  else (st, CaptchaAction.ignored)

/-- State after n consecutive CAPTCHA detections, each handled by
handleCaptchaEvent. -/
def afterDetections (s : CaptchaState) : Nat → CaptchaState
  | 0 => s
  | n + 1 => (handleCaptchaEvent (afterDetections s n)).1

/-- Action taken by the (n+1)-th consecutive CAPTCHA detection. -/
def detectionAction (s : CaptchaState) (n : Nat) : CaptchaAction :=
  (handleCaptchaEvent (afterDetections s n)).2

/-- Response to the SCRAPE_SERP message (background.js 610-615): a
CAPTCHA signal, a null/failed response (the `else throw` branch), or a
structured data object. -/
inductive ScrapeResponse
  | captcha
  | failed
  | data (d : PageResults)
  deriving DecidableEq, Repr

/-- Response to the NAVIGATE_NEXT message (background.js 651-661). -/
inductive NavResponse
  | captcha
  | exhausted
  | success
  deriving DecidableEq, Repr

/-- Environment of one iteration of the pagination while-loop: the
isPaused answers at each of the five re-check points, the CHECK_CAPTCHA
pre-check, the SCRAPE_SERP response and the NAVIGATE_NEXT response.
pausedA is the check at the loop top (line 579), pausedB after the tab
load (584), pausedC after scrolling (599), pausedD after the screenshot
(607) and pausedE before pagination (649). -/
structure LoopEnv where
  pausedA : Bool
  pausedB : Bool
  preCheckCaptcha : Bool
  pausedC : Bool
  pausedD : Bool
  scrape : ScrapeResponse
  pausedE : Bool
  nav : NavResponse
  deriving DecidableEq, Repr

/-- Reason the pagination loop stopped: guardStop (loop condition
false on entry), pausedBreak (an isPaused check broke the loop),
captchaHandoff (return via handleCaptchaEvent), scrapeFailed (the
thrown "Scrape failed." error), quotaMet (the TARGET MET break),
noMorePages (the END break), fuelOut (the modelled environment ran
out while the loop would continue). -/
inductive LoopExit
  | guardStop
  | pausedBreak
  | captchaHandoff
  | scrapeFailed
  | quotaMet
  | noMorePages
  | fuelOut
  deriving DecidableEq, Repr

/-- Local state of one processQueue invocation for the selected task:
the task record being mutated, collectedOrganic, currentPage, the
existingUrls deduplication set (as a list), the number of
NAVIGATE_NEXT requests issued, and the sequence of task snapshots
persisted by saveSession inside the loop. -/
structure LoopState where
  task : Task
  collected : Nat
  page : Nat
  existingUrls : List String
  navRequests : Nat
  saved : List Task
  deriving DecidableEq, Repr

/-- URLs of all organic entries recorded across a task's pages, in
recording order (background.js 563-564 builds the dedup set from
exactly these). -/
def taskUrls (t : Task) : List String :=
  t.pages.flatMap (fun p => p.results.organic.map (fun r => r.url))

/-- Ranks of all organic entries recorded across a task's pages, in
recording order. -/
def taskRanks (t : Task) : List Nat :=
  t.pages.flatMap (fun p => p.results.organic.map (fun r => r.rank))

/-- Sum of the organic-result counts of a task's recorded pages. -/
def organicCount (t : Task) : Nat :=
  (t.pages.map (fun p => p.results.organic.length)).sum

/-- Resume point of the pagination loop (background.js 560-564):
collected = task.totalOrganic, page = task.pages.length + 1, and the
deduplication set rebuilt from all previously recorded organic URLs. -/
def initLoopState (t : Task) : LoopState :=
  { task := t
  , collected := t.totalOrganic
  , page := t.pages.length + 1
  , existingUrls := taskUrls t
  , navRequests := 0
  , saved := [] }

/-- Store step of one loop iteration (background.js 617-642): filter
the scraped organic entries against existingUrls, add the survivors'
URLs to the set, trim to the remaining quota, push the page, update
totalOrganic = collected + stored length, and persist the task. -/
def storeStep (quota : Nat) (st : LoopState) (d : PageResults) : LoopState :=
  let newOrganic := d.organic.filter (fun r => !(decide (r.url ∈ st.existingUrls)))
  let finalOrganic := newOrganic.take (quota - st.collected)
  let storedPage : Page :=
    { pageNumber := st.page
    , results := { organic := finalOrganic, ads := d.ads, ai_overview := d.ai_overview } }
  let newTotal := st.collected + finalOrganic.length
  let task1 := { st.task with pages := st.task.pages ++ [storedPage], totalOrganic := newTotal }
  { st with
      task := task1
    , collected := newTotal
    , existingUrls := st.existingUrls ++ newOrganic.map (fun r => r.url)
    , saved := st.saved ++ [task1] }

/-- Checks performed before scraping in one loop iteration
(background.js 579-607): pause at the loop top, pause after the tab
load, the CHECK_CAPTCHA pre-check, pause after scrolling, pause after
the screenshot, in that order. -/
def preChecks (e : LoopEnv) : Option LoopExit :=
  if e.pausedA then some LoopExit.pausedBreak
  else if e.pausedB then some LoopExit.pausedBreak
  else if e.preCheckCaptcha then some LoopExit.captchaHandoff
  else if e.pausedC then some LoopExit.pausedBreak
  else if e.pausedD then some LoopExit.pausedBreak
  else none

/-- Continuation after the store step (background.js 644-669): break on
quota met; break if paused; otherwise request NAVIGATE_NEXT (counted in
navRequests) and on success advance currentPage and loop again. -/
def afterStore (quota : Nat) (st : LoopState) (e : LoopEnv) (d : PageResults) :
    LoopState × Option LoopExit :=
  let st1 := storeStep quota st d
  if quota ≤ st1.collected then (st1, some LoopExit.quotaMet)
  else if e.pausedE then (st1, some LoopExit.pausedBreak)
  else
    let st2 := { st1 with navRequests := st1.navRequests + 1 }
    match e.nav with
    | NavResponse.captcha => (st2, some LoopExit.captchaHandoff)
    | NavResponse.exhausted => (st2, some LoopExit.noMorePages)
    | NavResponse.success => ({ st2 with page := st2.page + 1 }, none)

/-- One iteration of the pagination while-loop body (background.js
577-671); `some exit` means the loop terminated in this iteration. -/
def processPage (quota : Nat) (st : LoopState) (e : LoopEnv) :
    LoopState × Option LoopExit :=
  match preChecks e with
  | some ex => (st, some ex)
  | none =>
    match e.scrape with
    | ScrapeResponse.captcha => (st, some LoopExit.captchaHandoff)
    | ScrapeResponse.failed => (st, some LoopExit.scrapeFailed)
    | ScrapeResponse.data d => afterStore quota st e d

/-- The pagination while-loop (background.js 577-671): while
collected < quota and page <= MAX_PAGES, run one iteration against the
next environment. -/
def runLoop (quota : Nat) : List LoopEnv → LoopState → LoopState × LoopExit
  | [], st =>
    if st.collected < quota ∧ st.page ≤ MAX_PAGES then (st, LoopExit.fuelOut)
    else (st, LoopExit.guardStop)
  | e :: es, st =>
    if st.collected < quota ∧ st.page ≤ MAX_PAGES then
      match processPage quota st e with
      | (st1, some ex) => (st1, ex)
      | (st1, none) => runLoop quota es st1
    else (st, LoopExit.guardStop)

/-- Inter-page idle wait (background.js 666-669): the random wait is
cut into 500 ms sub-intervals; before each sub-interval sleep the
pause flag is polled and the wait breaks if it is set.  `pausedAt i`
is the isPaused answer at the i-th poll; the argument is the number of
sub-intervals of the chosen wait; the value is the number of
sub-interval sleeps actually performed. -/
def idleLoop (pausedAt : Nat → Bool) : Nat → Nat
  | 0 => 0
  | n + 1 => if pausedAt 0 then 0 else idleLoop (fun i => pausedAt (i + 1)) n + 1

/-- Per-tab sessionStorage state used by scrapeData (content.js
206-208): rat_last_query and rat_organic_count.  A freshly created tab
has neither key. -/
structure TabState where
  lastQuery : Option String
  organicCount : Option Nat
  deriving DecidableEq, Repr

/-- Raw DOM data of one organic result container before ranking. -/
structure RawItem where
  title : String
  url : String
  snippet : String
  deriving DecidableEq, Repr

/-- Embedding of the repeated extractOrganic pushes (content.js
336-355): the entry pushed for each item gets
rank = offset + list.length + 1 at push time. -/
def extractOrganicList (offset : Nat) (items : List RawItem) : List OrganicEntry :=
  items.foldl
    (fun acc it =>
      acc ++ [{ rank := offset + acc.length + 1
              , title := it.title, url := it.url, snippet := it.snippet }])
    []

/-- Embedding of the rank-offset logic of scrapeData (content.js
201-217 and 331-333): if the query changed or the page is a first page
(no start parameter), the offset resets to 0 and the stored query is
replaced; otherwise the offset is the stored count; afterwards the
stored count becomes offset + number of extracted organic results. -/
def scrapeData (tab : TabState) (currentQuery : String) (isFirstPage : Bool)
    (items : List RawItem) : TabState × List OrganicEntry :=
  let rankOffset :=
    if tab.lastQuery ≠ some currentQuery ∨ isFirstPage then 0
    else tab.organicCount.getD 0
  let organic := extractOrganicList rankOffset items
  ({ lastQuery := some currentQuery
   , organicCount := some (rankOffset + organic.length) }, organic)

/-- Successive scrapeData calls in one tab for one query: the first
call is on the first page, later calls (after #pnnext clicks) are not. -/
def scrapeSequence (tab : TabState) (q : String) (isFirst : Bool) :
    List (List RawItem) → List (List OrganicEntry)
  | [] => []
  | items :: rest =>
    (scrapeData tab q isFirst items).2
      :: scrapeSequence (scrapeData tab q isFirst items).1 q false rest

/-- HTML/screenshot artifact stored per page in the results store
(background.js 636). -/
structure PageArtifact where
  html : Option String
  screenshot : Option String
  deriving DecidableEq, Repr

/-- Log entry appended by logToSession (background.js 131-136). -/
structure LogEntry where
  sessionId : String
  ts : String
  msg : String
  level : String
  deriving DecidableEq, Repr

/-- The three IndexedDB object stores (background.js 110-118):
sessions (keyPath id), results (string keys), logs (append-only). -/
structure Database where
  sessions : List Session
  results : List (String × PageArtifact)
  logs : List LogEntry
  deriving DecidableEq, Repr

/-- Key of a page artifact in the results store (background.js 182):
sessionId, task index and page number joined by underscores. -/
def pageKey (sessionId : String) (taskIdx : Nat) (pageNum : Nat) : String :=
  sessionId ++ "_" ++ toString taskIdx ++ "_" ++ toString pageNum

/-- Embedding of deleteSession (background.js 533-539): the
transaction opens the sessions, results and logs stores, but a delete
is issued only against the sessions store. -/
def deleteSessionDb (dbs : Database) (id : String) : Database :=
  { dbs with sessions := dbs.sessions.filter (fun s => !(decide (s.id = id))) }

/-- Fixture: a Google engine configuration. -/
def cfg0 : EngineConfig :=
  { engineName := "google", countryCode := "us", countryName := "USA"
  , langCode := "en", domain := "www.google.com", location := none }

/-- Fixture: default settings with proxies disabled. -/
def settings0 : Settings :=
  { saveScreenshots := false, saveHtml := false, useProxies := false, proxyList := [] }

/-- Fixture: a task exactly as created by createNewSession
(background.js 491-493). -/
def freshTask (term : String) : Task :=
  { term := term, config := cfg0, status := TaskStatus.OPEN
  , pages := [], totalOrganic := 0, retryCount := 0 }

/-- Fixture: a RUNNING session with a given task list. -/
def mkSession (tasks : List Task) : Session :=
  { id := "sess_1", name := "study", status := SessionStatus.RUNNING
  , tasks := tasks, currentIndex := 0, globalCount := 10
  , delaysMin := 1000, delaysMax := 2000, settings := settings0
  , originalQueries := ["q"], originalConfigs := [cfg0] }

/-- Fixture: a RUNNING session whose tasks are all DONE. -/
def sessAllDone : Session := mkSession [{ freshTask "a" with status := TaskStatus.DONE }]

/-- Fixture: a task that has already used its 3 retries. -/
def taskC5 : Task := { freshTask "q" with retryCount := 3 }

/-- Fixture: a RUNNING session holding that task. -/
def sessC5 : Session := mkSession [taskC5]

/-- Fixture: CAPTCHA-recovery state at session start with one proxy. -/
def capC6 : CaptchaState :=
  { sessionStatus := SessionStatus.RUNNING, proxyTry := 0, retryWait := 0
  , useProxies := true, proxyList := ["10.0.0.1:8080:user:pass"] }

/-- Loop environment for an iteration with no pause and no CAPTCHA,
with the given scrape and pagination responses. -/
def mkEnv (scr : ScrapeResponse) (nav : NavResponse) : LoopEnv :=
  { pausedA := false, pausedB := false, preCheckCaptcha := false
  , pausedC := false, pausedD := false, scrape := scr, pausedE := false, nav := nav }

/-- Page result set with the given organic entries, no ads and no AI
overview. -/
def mkData (organic : List OrganicEntry) : PageResults :=
  { organic := organic, ads := []
  , ai_overview := { found := false, text_full := "", sources := [] } }

/-- Organic entry with the given rank and url. -/
def oe (r : Nat) (u : String) : OrganicEntry :=
  { rank := r, title := "t", url := u, snippet := "" }

/-- Organic entries of the scraped page in a claim that an environment
presents to the loop; early-exit responses contribute nothing. -/
def envOrganic (e : LoopEnv) : List OrganicEntry :=
  match e.scrape with
  | ScrapeResponse.data d => d.organic
  | _ => []

/-- The organic URL list of an environment's scraped page is itself
duplicate-free (trivially true for the non-data responses). -/
def envOrganicNodup (e : LoopEnv) : Prop :=
  match e.scrape with
  | ScrapeResponse.data d => (d.organic.map (fun r => r.url)).Nodup
  | _ => True

/-- Fixture for C3: a first page yielding 20 new unique organic URLs. -/
def pageC3 : List OrganicEntry :=
  [oe 1 "u01", oe 2 "u02", oe 3 "u03", oe 4 "u04", oe 5 "u05"
  , oe 6 "u06", oe 7 "u07", oe 8 "u08", oe 9 "u09", oe 10 "u10"
  , oe 11 "u11", oe 12 "u12", oe 13 "u13", oe 14 "u14", oe 15 "u15"
  , oe 16 "u16", oe 17 "u17", oe 18 "u18", oe 19 "u19", oe 20 "u20"]

/-- Fixture for C3: the environment serving that page. -/
def envC3 : LoopEnv := mkEnv (ScrapeResponse.data (mkData pageC3)) NavResponse.success

/-- Fixture for C2's counterexample: one scraped page carrying the
same URL twice. -/
def envC2 : LoopEnv :=
  mkEnv (ScrapeResponse.data (mkData [oe 1 "dup", oe 2 "dup"])) NavResponse.exhausted

/-- Fixture for C1's witness: one scraped page with three distinct
URLs against quota 2. -/
def envC1 : LoopEnv :=
  mkEnv (ScrapeResponse.data (mkData [oe 1 "a", oe 2 "b", oe 3 "c"])) NavResponse.exhausted

/-- Fixture for C2's amended witness: one duplicate-free scraped page. -/
def envC2b : LoopEnv :=
  mkEnv (ScrapeResponse.data (mkData [oe 1 "a", oe 2 "b"])) NavResponse.exhausted

/-- Fixture for C7: a task with two persisted pages whose recorded
organic entries total 2. -/
def taskC7 : Task :=
  { freshTask "q7" with
      pages :=
        [ { pageNumber := 1, results := mkData [oe 1 "a"] }
        , { pageNumber := 2, results := mkData [oe 2 "b"] } ]
    , totalOrganic := 2 }

/-- Fixture for C7: a session paused by a CAPTCHA. -/
def sessC7 : Session := { mkSession [taskC7] with status := SessionStatus.PAUSED_CAPTCHA }

/-- Fixture for C8: the raw organic items of the first fetch. -/
def itemsP1 : List RawItem :=
  [ { title := "ta", url := "ua", snippet := "" }
  , { title := "tb", url := "ub", snippet := "" }
  , { title := "tc", url := "uc", snippet := "" } ]

/-- Fixture for C8: the raw organic items the re-opened first page
presents after the CAPTCHA resume (one result changed). -/
def itemsP2 : List RawItem :=
  [ { title := "ta", url := "ua", snippet := "" }
  , { title := "tb", url := "ub", snippet := "" }
  , { title := "td", url := "ud", snippet := "" } ]

/-- Fixture for C8: a fresh tab's sessionStorage (a new tab created by
processQueue after a resume has neither key). -/
def freshTab : TabState := { lastQuery := none, organicCount := none }

/-- Fixture for C8: first run of the loop, ending in a CAPTCHA handoff
after storing page 1. -/
def envC8a : LoopEnv :=
  mkEnv (ScrapeResponse.data (mkData (scrapeData freshTab "q8" true itemsP1).2))
    NavResponse.captcha

/-- Fixture for C8: the task state persisted when the CAPTCHA hit. -/
def taskC8 : Task :=
  ((runLoop 10 [envC8a] (initLoopState (freshTask "q8"))).1).task

/-- Fixture for C8: the run after the resume; processQueue opens a new
tab at the start-less search URL, so the content script sees a fresh
sessionStorage and a first page. -/
def envC8b : LoopEnv :=
  mkEnv (ScrapeResponse.data (mkData (scrapeData freshTab "q8" true itemsP2).2))
    NavResponse.exhausted

/-- Fixture for C8: the task after the post-resume fetch. -/
def taskC8Final : Task :=
  ((runLoop 10 [envC8b] (initLoopState taskC8)).1).task

/-- Fixture for C9: pause flag that becomes set at the third 500 ms
sub-interval poll. -/
def pausedAtW : Nat → Bool := fun j => decide (2 ≤ j)

/-- Fixture for C9: an iteration whose loop-top isPaused check answers
true. -/
def envC9 : LoopEnv :=
  { mkEnv (ScrapeResponse.data (mkData [])) NavResponse.success with pausedA := true }

/-- Strictly increasing list of naturals. -/
abbrev strictlyIncreasing (l : List Nat) : Prop := List.Pairwise (fun a b => a < b) l

/-- Store-level effect of one processQueue invocation that hits a
transient error on its first page (a null SCRAPE_SERP response throws
"Scrape failed.").  The invocation reads the stored session, selects
the first OPEN task and persists the updated currentIndex
(background.js 554-558); the pagination loop then throws before any
page is stored; the catch block calls handleRetry, which mutates only
the in-memory task object and never calls saveSession (background.js
680-682, 867-878), and the cooldown callback re-reads the session from
the store (background.js 690-694) — so the retryCount/status mutation
is never persisted and the stored tasks are unchanged. -/
def failedInvocation (stored : Session) : Session :=
  if stored.status = SessionStatus.RUNNING then
    match firstOpenIdx stored.tasks with
    | none => { stored with status := SessionStatus.DONE }
    | some i => { stored with currentIndex := i }
  else stored

/-- Stored session after n failing processQueue invocations. -/
def iterateInvocations (s : Session) : Nat → Session
  | 0 => s
  | n + 1 => failedInvocation (iterateInvocations s n)

/-- Loop environments presenting the organic outputs of successive
scrapeData calls of one tab, each page followed by a successful
pagination. -/
def tabRunEnvs (tab : TabState) (q : String) (pages : List (List RawItem)) : List LoopEnv :=
  (scrapeSequence tab q true pages).map
    (fun o => mkEnv (ScrapeResponse.data (mkData o)) NavResponse.success)

/-- Fixture for C8's amended witness: two pages scraped in one tab. -/
def envsW8 : List LoopEnv := tabRunEnvs freshTab "w8" [itemsP1, itemsP2]

lemma firstOpenIdx_isOpen : ∀ (ts : List Task) (i : Nat), firstOpenIdx ts = some i →
    ∃ t, ts[i]? = some t ∧ t.status = TaskStatus.OPEN := by
  intro ts
  induction ts with
  | nil => intro i h; simp [firstOpenIdx] at h
  | cons t ts ih =>
    intro i h
    by_cases hop : t.status = TaskStatus.OPEN
    · simp only [firstOpenIdx, if_pos hop, Option.some.injEq] at h
      subst h
      exact ⟨t, by simp, hop⟩
    · simp only [firstOpenIdx, if_neg hop, Option.map_eq_some'] at h
      obtain ⟨j, hj, rfl⟩ := h
      obtain ⟨t', ht', hops⟩ := ih j hj
      exact ⟨t', by simpa using ht', hops⟩

lemma firstOpenIdx_min : ∀ (ts : List Task) (i : Nat), firstOpenIdx ts = some i →
    ∀ j, j < i → ∀ t, ts[j]? = some t → t.status ≠ TaskStatus.OPEN := by
  intro ts
  induction ts with
  | nil => intro i h; simp [firstOpenIdx] at h
  | cons t ts ih =>
    intro i h j hj u hu
    by_cases hop : t.status = TaskStatus.OPEN
    · simp only [firstOpenIdx, if_pos hop, Option.some.injEq] at h
      omega
    · simp only [firstOpenIdx, if_neg hop, Option.map_eq_some'] at h
      obtain ⟨i', hi', rfl⟩ := h
      cases j with
      | zero =>
        simp only [List.getElem?_cons_zero, Option.some.injEq] at hu
        subst hu; exact hop
      | succ j' =>
        have hj' : j' < i' := by omega
        exact ih i' hi' j' hj' u (by simpa using hu)

lemma firstOpenIdx_eq_none : ∀ (ts : List Task),
    firstOpenIdx ts = none ↔ ∀ t ∈ ts, t.status ≠ TaskStatus.OPEN := by
  intro ts
  induction ts with
  | nil => simp [firstOpenIdx]
  | cons t ts ih =>
    by_cases hop : t.status = TaskStatus.OPEN
    · simp [firstOpenIdx, hop]
    · simp [firstOpenIdx, hop, ih]

/-- C4: for every RUNNING session handed to the scheduler prefix of
processQueue, if at least one task is OPEN then the selected index is
the smallest index of an OPEN task (declaration order, not priority);
if no task is OPEN, the session status is set to DONE and no task is
selected. -/
theorem c4_scheduler_first_open (s : Session)
    (hrun : s.status = SessionStatus.RUNNING) :
    ((∃ t ∈ s.tasks, t.status = TaskStatus.OPEN) →
      ∃ i, (scheduleNext s).2 = some i ∧
        (∃ t, s.tasks[i]? = some t ∧ t.status = TaskStatus.OPEN) ∧
        ∀ j, j < i → ∀ t, s.tasks[j]? = some t → t.status ≠ TaskStatus.OPEN) ∧
    ((∀ t ∈ s.tasks, t.status ≠ TaskStatus.OPEN) →
      (scheduleNext s).2 = none ∧ (scheduleNext s).1.status = SessionStatus.DONE) := by
  constructor
  · rintro ⟨t, ht, hop⟩
    cases h : firstOpenIdx s.tasks with
    | none => exact absurd hop ((firstOpenIdx_eq_none s.tasks).mp h t ht)
    | some i =>
      refine ⟨i, ?_, firstOpenIdx_isOpen s.tasks i h, firstOpenIdx_min s.tasks i h⟩
      simp [scheduleNext, hrun, h]
  · intro hall
    have h : firstOpenIdx s.tasks = none := (firstOpenIdx_eq_none s.tasks).mpr hall
    constructor <;> simp [scheduleNext, hrun, h]

theorem c4_scheduler_first_open_witness :
    sessAllDone.status = SessionStatus.RUNNING ∧
    (scheduleNext sessAllDone).2 = none ∧
    (scheduleNext sessAllDone).1.status = SessionStatus.DONE :=
  ⟨rfl, (c4_scheduler_first_open sessAllDone rfl).2 (by decide)⟩

lemma failedInvocation_tasks (s : Session) : (failedInvocation s).tasks = s.tasks := by
  simp only [failedInvocation]
  split
  · split <;> rfl
  · rfl

/-- C5 (code bug): handleRetry does increment retryCount and mark the
task FAILED above 3 on the in-memory task object, but it never calls
saveSession and processQueue re-reads the session from the store
before the next round, so the mutation is discarded: after any number
of failing invocations the stored tasks are unchanged — the persisted
retryCount never increments, no task ever becomes FAILED, and the
scheduler re-selects the very same task every round, contrary to the
claimed persisted FAILED transition and permanent de-selection. -/
theorem c5_retry_never_persisted (s : Session) (i : Nat) (t : Task)
    (hrun : s.status = SessionStatus.RUNNING)
    (hsel : firstOpenIdx s.tasks = some i)
    (ht : s.tasks[i]? = some t) :
    (handleRetry (isPausedSession s) t).retryCount = t.retryCount + 1 ∧
    (3 < t.retryCount + 1 →
      (handleRetry (isPausedSession s) t).status = TaskStatus.FAILED) ∧
    (∀ n, (iterateInvocations s n).tasks = s.tasks) ∧
    (∀ n, firstOpenIdx (iterateInvocations s n).tasks = some i) ∧
    (∀ n, (iterateInvocations s n).tasks[i]? = some t) := by
  have hnp : isPausedSession s = false := by simp [isPausedSession, hrun]
  have htasks : ∀ n, (iterateInvocations s n).tasks = s.tasks := by
    intro n
    induction n with
    | zero => rfl
    | succ n ih =>
      show (failedInvocation (iterateInvocations s n)).tasks = s.tasks
      rw [failedInvocation_tasks, ih]
  refine ⟨?_, ?_, htasks, ?_, ?_⟩
  · rw [hnp]
    simp only [handleRetry, Bool.false_eq_true, if_false]
    split <;> rfl
  · intro h3
    rw [hnp]
    simp only [handleRetry, Bool.false_eq_true, if_false, if_pos h3]
  · intro n
    rw [htasks n]
    exact hsel
  · intro n
    rw [htasks n]
    exact ht

theorem c5_retry_never_persisted_witness :
    sessC5.status = SessionStatus.RUNNING ∧
    (handleRetry false taskC5).retryCount = 4 ∧
    (handleRetry false taskC5).status = TaskStatus.FAILED ∧
    (iterateInvocations sessC5 4).tasks = sessC5.tasks ∧
    firstOpenIdx (iterateInvocations sessC5 4).tasks = some 0 := by
  obtain ⟨h1, h2, h3, h4, _⟩ :=
    c5_retry_never_persisted sessC5 0 taskC5 rfl (by decide) (by decide)
  exact ⟨rfl, h1, h2 (by decide), h3 4, h4 4⟩

/-- C6: starting from proxyAttempts = 0 and waitAttempts = 0 with
proxies enabled and a non-empty proxy list, four consecutive CAPTCHA
detections behave as: detections 1-3 each take the proxy-rotation fast
path (no alarm), increment the proxy-attempt counter and leave the
session resumed (RUNNING); detection 4 reverts to direct connection,
resets the proxy-attempt counter to 0 and creates an alarm at the
first backoff tier RETRY_DELAYS[0] = 5 minutes, leaving the session
PAUSED_CAPTCHA. -/
theorem c6_captcha_escalation (s0 : CaptchaState)
    (hrun : s0.sessionStatus = SessionStatus.RUNNING)
    (hup : s0.useProxies = true)
    (hne : 0 < s0.proxyList.length)
    (hp0 : s0.proxyTry = 0)
    (hw0 : s0.retryWait = 0) :
    detectionAction s0 0 = CaptchaAction.rotateProxy ∧
    (afterDetections s0 1).proxyTry = 1 ∧
    (afterDetections s0 1).sessionStatus = SessionStatus.RUNNING ∧
    detectionAction s0 1 = CaptchaAction.rotateProxy ∧
    (afterDetections s0 2).proxyTry = 2 ∧
    (afterDetections s0 2).sessionStatus = SessionStatus.RUNNING ∧
    detectionAction s0 2 = CaptchaAction.rotateProxy ∧
    (afterDetections s0 3).proxyTry = 3 ∧
    (afterDetections s0 3).sessionStatus = SessionStatus.RUNNING ∧
    detectionAction s0 3 = CaptchaAction.wait true 5 ∧
    (afterDetections s0 4).proxyTry = 0 ∧
    (afterDetections s0 4).sessionStatus = SessionStatus.PAUSED_CAPTCHA := by
  simp [detectionAction, afterDetections, handleCaptchaEvent, hrun, hup, hne, hp0, hw0,
    RETRY_DELAYS]

theorem c6_captcha_escalation_witness :
    capC6.sessionStatus = SessionStatus.RUNNING ∧
    0 < capC6.proxyList.length ∧
    detectionAction capC6 0 = CaptchaAction.rotateProxy ∧
    detectionAction capC6 3 = CaptchaAction.wait true 5 := by
  obtain ⟨a1, _, _, _, _, _, _, _, _, a4, _, _⟩ :=
    c6_captcha_escalation capC6 rfl rfl (by decide) rfl rfl
  exact ⟨rfl, by decide, a1, a4⟩

/-- C10: deleteSession removes only the session record from the
sessions store; although the transaction also opens the results and
logs stores, no delete is issued against them, so every page artifact
and every log entry remain unchanged after the session is deleted. -/
theorem c10_delete_session_frame (dbs : Database) (id : String) :
    (deleteSessionDb dbs id).results = dbs.results ∧
    (deleteSessionDb dbs id).logs = dbs.logs ∧
    (∀ s, s ∈ (deleteSessionDb dbs id).sessions ↔ s ∈ dbs.sessions ∧ s.id ≠ id) := by
  refine ⟨rfl, rfl, ?_⟩
  intro s
  simp [deleteSessionDb, List.mem_filter]

lemma runLoop_nil_fst (quota : Nat) (st : LoopState) : (runLoop quota [] st).1 = st := by
  simp only [runLoop]
  split <;> rfl

lemma runLoop_cons_eq (quota : Nat) (e : LoopEnv) (es : List LoopEnv) (st : LoopState)
    (hguard : st.collected < quota ∧ st.page ≤ MAX_PAGES) :
    runLoop quota (e :: es) st =
      match processPage quota st e with
      | (st1, some ex) => (st1, ex)
      | (st1, none) => runLoop quota es st1 := by
  simp only [runLoop, if_pos hguard]

lemma runLoop_cons_stop (quota : Nat) (e : LoopEnv) (es : List LoopEnv) (st : LoopState)
    (hguard : ¬ (st.collected < quota ∧ st.page ≤ MAX_PAGES)) :
    runLoop quota (e :: es) st = (st, LoopExit.guardStop) := by
  simp only [runLoop, if_neg hguard]

lemma processPage_split (quota : Nat) (st : LoopState) (e : LoopEnv) :
    (∃ ex, processPage quota st e = (st, some ex)) ∨
    ∃ d, e.scrape = ScrapeResponse.data d ∧
      processPage quota st e = afterStore quota st e d := by
  simp only [processPage]
  cases preChecks e with
  | some ex => exact Or.inl ⟨ex, rfl⟩
  | none =>
    cases hs : e.scrape with
    | captcha => exact Or.inl ⟨LoopExit.captchaHandoff, rfl⟩
    | failed => exact Or.inl ⟨LoopExit.scrapeFailed, rfl⟩
    | data d => exact Or.inr ⟨d, rfl, rfl⟩

lemma processPage_pausedA (quota : Nat) (st : LoopState) (e : LoopEnv)
    (h : e.pausedA = true) :
    processPage quota st e = (st, some LoopExit.pausedBreak) := by
  simp [processPage, preChecks, h]

lemma afterStore_split (quota : Nat) (st : LoopState) (e : LoopEnv) (d : PageResults) :
    (∃ ex, afterStore quota st e d = (storeStep quota st d, some ex)) ∨
    (∃ ex, afterStore quota st e d =
      ({ storeStep quota st d with
           navRequests := (storeStep quota st d).navRequests + 1 }, some ex)) ∨
    afterStore quota st e d =
      ({ storeStep quota st d with
           navRequests := (storeStep quota st d).navRequests + 1,
           page := (storeStep quota st d).page + 1 }, none) := by
  simp only [afterStore]
  split
  · exact Or.inl ⟨LoopExit.quotaMet, rfl⟩
  · split
    · exact Or.inl ⟨LoopExit.pausedBreak, rfl⟩
    · cases e.nav with
      | captcha => exact Or.inr (Or.inl ⟨LoopExit.captchaHandoff, rfl⟩)
      | exhausted => exact Or.inr (Or.inl ⟨LoopExit.noMorePages, rfl⟩)
      | success => exact Or.inr (Or.inr rfl)

lemma storeStep_page (quota : Nat) (st : LoopState) (d : PageResults) :
    (storeStep quota st d).page = st.page := rfl

lemma storeStep_inv (quota : Nat) (st : LoopState) (d : PageResults)
    (hsync : st.collected = st.task.totalOrganic)
    (hsum : st.task.totalOrganic = organicCount st.task)
    (hlt : st.collected < quota) :
    (storeStep quota st d).collected = (storeStep quota st d).task.totalOrganic ∧
    (storeStep quota st d).task.totalOrganic = organicCount (storeStep quota st d).task ∧
    (storeStep quota st d).task.totalOrganic ≤ quota ∧
    (storeStep quota st d).saved = st.saved ++ [(storeStep quota st d).task] := by
  refine ⟨rfl, ?_, ?_, rfl⟩
  · simp only [organicCount] at hsum
    simp only [storeStep, organicCount, List.map_append, List.sum_append, List.map_cons,
      List.map_nil, List.sum_cons, List.sum_nil]
    omega
  · simp only [storeStep, List.length_take]
    omega

lemma runLoop_inv_saved (quota : Nat) :
    ∀ (envs : List LoopEnv) (st : LoopState),
      st.collected = st.task.totalOrganic →
      st.task.totalOrganic = organicCount st.task →
      st.task.totalOrganic ≤ quota →
      (∀ t ∈ st.saved, t.totalOrganic = organicCount t ∧ t.totalOrganic ≤ quota) →
      (∀ t ∈ ((runLoop quota envs st).1).saved,
        t.totalOrganic = organicCount t ∧ t.totalOrganic ≤ quota) ∧
      ((runLoop quota envs st).1).task.totalOrganic
        = organicCount ((runLoop quota envs st).1).task ∧
      ((runLoop quota envs st).1).task.totalOrganic ≤ quota := by
  intro envs
  induction envs with
  | nil =>
    intro st hsync hsum hle hsaved
    rw [runLoop_nil_fst]
    exact ⟨hsaved, hsum, hle⟩
  | cons e es ih =>
    intro st hsync hsum hle hsaved
    by_cases hguard : st.collected < quota ∧ st.page ≤ MAX_PAGES
    · rw [runLoop_cons_eq quota e es st hguard]
      rcases processPage_split quota st e with ⟨ex, heq⟩ | ⟨d, _, heq⟩
      · rw [heq]
        exact ⟨hsaved, hsum, hle⟩
      · rw [heq]
        obtain ⟨hc1, hsum1, hle1, hsv1⟩ := storeStep_inv quota st d hsync hsum hguard.1
        have hsaved1 : ∀ t ∈ (storeStep quota st d).saved,
            t.totalOrganic = organicCount t ∧ t.totalOrganic ≤ quota := by
          rw [hsv1]
          intro t ht
          rcases List.mem_append.mp ht with h | h
          · exact hsaved t h
          · rw [List.mem_singleton] at h
            subst h
            exact ⟨hsum1, hle1⟩
        rcases afterStore_split quota st e d with ⟨ex, haeq⟩ | ⟨ex, haeq⟩ | haeq
        · rw [haeq]
          exact ⟨hsaved1, hsum1, hle1⟩
        · rw [haeq]
          exact ⟨hsaved1, hsum1, hle1⟩
        · rw [haeq]
          exact ih _ hc1 hsum1 hle1 hsaved1
    · rw [runLoop_cons_stop quota e es st hguard]
      exact ⟨hsaved, hsum, hle⟩

/-- C1: starting the pagination loop on a task whose totalOrganic
equals the sum of the organic counts of its recorded pages and is
within the session quota, every task state persisted by saveSession
during the loop, and the final task state, again satisfy both:
totalOrganic equals the sum of the recorded pages' organic counts and
never exceeds the quota (globalCount). -/
theorem c1_total_organic_invariant (quota : Nat) (t : Task) (envs : List LoopEnv)
    (hsum : t.totalOrganic = organicCount t)
    (hle : t.totalOrganic ≤ quota) :
    (∀ t2 ∈ ((runLoop quota envs (initLoopState t)).1).saved,
      t2.totalOrganic = organicCount t2 ∧ t2.totalOrganic ≤ quota) ∧
    ((runLoop quota envs (initLoopState t)).1).task.totalOrganic
      = organicCount ((runLoop quota envs (initLoopState t)).1).task ∧
    ((runLoop quota envs (initLoopState t)).1).task.totalOrganic ≤ quota :=
  runLoop_inv_saved quota envs (initLoopState t) rfl hsum hle
    (by intro t2 h; simp [initLoopState] at h)

theorem c1_total_organic_invariant_witness :
    (freshTask "w1").totalOrganic = organicCount (freshTask "w1") ∧
    ((runLoop 2 [envC1] (initLoopState (freshTask "w1"))).1).task.totalOrganic
      = organicCount ((runLoop 2 [envC1] (initLoopState (freshTask "w1"))).1).task ∧
    ((runLoop 2 [envC1] (initLoopState (freshTask "w1"))).1).task.totalOrganic ≤ 2 :=
  ⟨rfl, (c1_total_organic_invariant 2 (freshTask "w1") [envC1] rfl (by decide)).2⟩

/-- C3: with quota 15 and a first page yielding 20 new unique organic
URLs, exactly 15 organic entries are stored (one page, totalOrganic
15), the loop exits on the quota-met break, and no NAVIGATE_NEXT
pagination request is issued. -/
theorem c3_quota_trim_first_page :
    (runLoop 15 [envC3] (initLoopState (freshTask "q3"))).2 = LoopExit.quotaMet ∧
    ((runLoop 15 [envC3] (initLoopState (freshTask "q3"))).1).task.totalOrganic = 15 ∧
    organicCount ((runLoop 15 [envC3] (initLoopState (freshTask "q3"))).1).task = 15 ∧
    ((runLoop 15 [envC3] (initLoopState (freshTask "q3"))).1).task.pages.length = 1 ∧
    ((runLoop 15 [envC3] (initLoopState (freshTask "q3"))).1).navRequests = 0 := by
  decide

/-- C2 counterexample: the dedup filter runs over the whole scraped
page before any URL is added to the set (background.js 619-620), so a
page carrying the same URL twice stores both entries: after one loop
iteration on a fresh task the recorded URLs of the task are not
duplicate-free, refuting per-task URL uniqueness as claimed. -/
theorem c2_counterexample_intra_page_dup :
    ¬ (taskUrls ((runLoop 5 [envC2] (initLoopState (freshTask "q2"))).1).task).Nodup := by
  decide

lemma storeStep_urls (quota : Nat) (st : LoopState) (d : PageResults)
    (hd : (d.organic.map (fun r => r.url)).Nodup)
    (hnd : (taskUrls st.task).Nodup)
    (hsub : ∀ u ∈ taskUrls st.task, u ∈ st.existingUrls) :
    (taskUrls (storeStep quota st d).task).Nodup ∧
    (∀ u ∈ taskUrls (storeStep quota st d).task, u ∈ (storeStep quota st d).existingUrls) := by
  have htu : taskUrls (storeStep quota st d).task
      = taskUrls st.task
        ++ ((d.organic.filter (fun r => !(decide (r.url ∈ st.existingUrls)))).take
              (quota - st.collected)).map (fun r => r.url) := by
    simp [storeStep, taskUrls, List.flatMap_append]
  have hex : (storeStep quota st d).existingUrls
      = st.existingUrls
        ++ (d.organic.filter (fun r => !(decide (r.url ∈ st.existingUrls)))).map
            (fun r => r.url) := rfl
  have hnewNd :
      (((d.organic.filter (fun r => !(decide (r.url ∈ st.existingUrls)))).take
          (quota - st.collected)).map (fun r => r.url)).Nodup := by
    refine List.Nodup.sublist (List.Sublist.map _ ?_) hd
    exact (List.take_sublist _ _).trans (List.filter_sublist _)
  have hnewNotOld : ∀ u ∈ ((d.organic.filter
        (fun r => !(decide (r.url ∈ st.existingUrls)))).take
          (quota - st.collected)).map (fun r => r.url),
      u ∉ st.existingUrls := by
    intro u hu
    rw [List.mem_map] at hu
    obtain ⟨r, hr, rfl⟩ := hu
    have hr2 := List.take_subset _ _ hr
    rw [List.mem_filter] at hr2
    have := hr2.2
    simpa using this
  constructor
  · rw [htu, List.nodup_append]
    refine ⟨hnd, hnewNd, ?_⟩
    intro u hu hu2
    exact hnewNotOld u hu2 (hsub u hu)
  · rw [htu, hex]
    intro u hu
    rcases List.mem_append.mp hu with h | h
    · exact List.mem_append.mpr (Or.inl (hsub u h))
    · refine List.mem_append.mpr (Or.inr ?_)
      rw [List.mem_map] at h ⊢
      obtain ⟨r, hr, rfl⟩ := h
      exact ⟨r, List.take_subset _ _ hr, rfl⟩

lemma runLoop_urls_nodup (quota : Nat) :
    ∀ (envs : List LoopEnv) (st : LoopState),
      (∀ e ∈ envs, envOrganicNodup e) →
      (taskUrls st.task).Nodup →
      (∀ u ∈ taskUrls st.task, u ∈ st.existingUrls) →
      (taskUrls ((runLoop quota envs st).1).task).Nodup ∧
      (∀ u ∈ taskUrls ((runLoop quota envs st).1).task,
        u ∈ ((runLoop quota envs st).1).existingUrls) := by
  intro envs
  induction envs with
  | nil =>
    intro st _ hnd hsub
    rw [runLoop_nil_fst]
    exact ⟨hnd, hsub⟩
  | cons e es ih =>
    intro st henv hnd hsub
    by_cases hguard : st.collected < quota ∧ st.page ≤ MAX_PAGES
    · rw [runLoop_cons_eq quota e es st hguard]
      rcases processPage_split quota st e with ⟨ex, heq⟩ | ⟨d, hd, heq⟩
      · rw [heq]
        exact ⟨hnd, hsub⟩
      · rw [heq]
        have hdn : (d.organic.map (fun r => r.url)).Nodup := by
          have := henv e (List.mem_cons_self e es)
          rw [envOrganicNodup, hd] at this
          exact this
        obtain ⟨hnd1, hsub1⟩ := storeStep_urls quota st d hdn hnd hsub
        have henv' : ∀ e2 ∈ es, envOrganicNodup e2 :=
          fun e2 he2 => henv e2 (List.mem_cons_of_mem e he2)
        rcases afterStore_split quota st e d with ⟨ex, haeq⟩ | ⟨ex, haeq⟩ | haeq
        · rw [haeq]
          exact ⟨hnd1, hsub1⟩
        · rw [haeq]
          exact ⟨hnd1, hsub1⟩
        · rw [haeq]
          exact ih _ henv' hnd1 hsub1
    · rw [runLoop_cons_stop quota e es st hguard]
      exact ⟨hnd, hsub⟩

/-- C2 amended: per-task URL uniqueness holds across pages, including
pages fetched after a resume (the dedup set is rebuilt from all
previously recorded organic URLs on loop entry and every entry whose
URL is already in the set is dropped), provided each individual
scraped page carries no duplicate URL within itself; the code does not
deduplicate inside one scraped page, which is the one case the
counterexample exhibits. -/
theorem c2_amended_per_task_unique (quota : Nat) (t : Task) (envs : List LoopEnv)
    (henv : ∀ e ∈ envs, envOrganicNodup e)
    (hnd : (taskUrls t).Nodup) :
    (taskUrls ((runLoop quota envs (initLoopState t)).1).task).Nodup :=
  (runLoop_urls_nodup quota envs (initLoopState t) henv hnd
    (by intro u hu; simpa [initLoopState] using hu)).1

theorem c2_amended_per_task_unique_witness :
    (taskUrls ((runLoop 5 [envC2b] (initLoopState (freshTask "w2"))).1).task).Nodup :=
  c2_amended_per_task_unique 5 (freshTask "w2") [envC2b]
    (by
      intro e he
      rw [List.mem_singleton] at he
      subst he
      show (List.map _ _).Nodup
      decide)
    (by decide)

lemma storeStep_pages (quota : Nat) (st : LoopState) (d : PageResults) :
    ∃ pg : Page, (storeStep quota st d).task.pages = st.task.pages ++ [pg] ∧
      pg.pageNumber = st.page ∧
      pg.results.organic.Sublist d.organic :=
  ⟨_, rfl, rfl, (List.take_sublist _ _).trans (List.filter_sublist _)⟩

lemma runLoop_new_pages (quota : Nat) :
    ∀ (envs : List LoopEnv) (st : LoopState),
      ∃ ns : List Page,
        ((runLoop quota envs st).1).task.pages = st.task.pages ++ ns ∧
        (∀ i (h : i < ns.length), (ns.get ⟨i, h⟩).pageNumber = st.page + i) ∧
        (ns.flatMap (fun p => p.results.organic)).Sublist (envs.flatMap envOrganic) := by
  intro envs
  induction envs with
  | nil =>
    intro st
    refine ⟨[], ?_, ?_, ?_⟩
    · rw [runLoop_nil_fst, List.append_nil]
    · intro i h
      simp at h
    · simp
  | cons e es ih =>
    intro st
    by_cases hguard : st.collected < quota ∧ st.page ≤ MAX_PAGES
    · rw [runLoop_cons_eq quota e es st hguard]
      rcases processPage_split quota st e with ⟨ex, heq⟩ | ⟨d, hd, heq⟩
      · rw [heq]
        refine ⟨[], by simp, ?_, by simp⟩
        intro i h
        simp at h
      · rw [heq]
        obtain ⟨pg, hpg, hnum, hsubl⟩ := storeStep_pages quota st d
        have hde : envOrganic e = d.organic := by rw [envOrganic, hd]
        have hterm : ∀ st2 : LoopState, st2.task = (storeStep quota st d).task →
            ∃ ns : List Page,
              st2.task.pages = st.task.pages ++ ns ∧
              (∀ i (h : i < ns.length), (ns.get ⟨i, h⟩).pageNumber = st.page + i) ∧
              (ns.flatMap (fun p => p.results.organic)).Sublist
                ((e :: es).flatMap envOrganic) := by
          intro st2 ht2
          refine ⟨[pg], by rw [ht2, hpg], ?_, ?_⟩
          · intro i h
            cases i with
            | zero => simpa using hnum
            | succ i2 => simp at h
          · rw [List.flatMap_cons e es envOrganic, hde]
            simp only [List.flatMap_cons, List.flatMap_nil, List.append_nil]
            exact hsubl.trans (List.sublist_append_left _ _)
        rcases afterStore_split quota st e d with ⟨ex, haeq⟩ | ⟨ex, haeq⟩ | haeq
        · rw [haeq]
          exact hterm _ rfl
        · rw [haeq]
          exact hterm _ rfl
        · rw [haeq]
          obtain ⟨ns2, h1, h2, h3⟩ := ih
            { storeStep quota st d with
                navRequests := (storeStep quota st d).navRequests + 1,
                page := (storeStep quota st d).page + 1 }
          refine ⟨pg :: ns2, ?_, ?_, ?_⟩
          · rw [h1]
            have hps : ({ storeStep quota st d with
                navRequests := (storeStep quota st d).navRequests + 1,
                page := (storeStep quota st d).page + 1 } : LoopState).task.pages
                = st.task.pages ++ [pg] := hpg
            rw [hps, List.append_assoc, List.singleton_append]
          · intro i h
            cases i with
            | zero => simpa using hnum
            | succ i2 =>
              have h2' : i2 < ns2.length := by simpa using h
              have hgoal := h2 i2 h2'
              have hpage2 : ({ storeStep quota st d with
                  navRequests := (storeStep quota st d).navRequests + 1,
                  page := (storeStep quota st d).page + 1 } : LoopState).page
                  = st.page + 1 := rfl
              rw [hpage2] at hgoal
              simp only [List.get_cons_succ]
              rw [hgoal]
              omega
          · rw [List.flatMap_cons e es envOrganic, hde,
              List.flatMap_cons pg ns2 (fun p => p.results.organic)]
            exact List.Sublist.append hsubl h3
    · rw [runLoop_cons_stop quota e es st hguard]
      refine ⟨[], by simp, ?_, by simp⟩
      intro i h
      simp at h

/-- C7: resuming a session that is PAUSED_CAPTCHA sets it back to
RUNNING and re-enters processQueue; for the selected task with 2
persisted pages the pagination loop resumes with page counter
pages.length + 1 = 3, and every page it records from then on is
numbered consecutively from 3 — pages 1 and 2 are never processed or
re-recorded again. -/
theorem c7_resume_continues_at_page_three (s : Session) (t : Task) (quota : Nat)
    (envs : List LoopEnv)
    (_hcap : s.status = SessionStatus.PAUSED_CAPTCHA)
    (hp : t.pages.length = 2) :
    (resumeSession s).status = SessionStatus.RUNNING ∧
    (initLoopState t).page = 3 ∧
    ∃ ns, ((runLoop quota envs (initLoopState t)).1).task.pages = t.pages ++ ns ∧
      (∀ i (h : i < ns.length), (ns.get ⟨i, h⟩).pageNumber = 3 + i) ∧
      ∀ p ∈ ns, 3 ≤ p.pageNumber := by
  have hpage : (initLoopState t).page = 3 := by simp [initLoopState, hp]
  refine ⟨rfl, hpage, ?_⟩
  obtain ⟨ns, h1, h2, _⟩ := runLoop_new_pages quota envs (initLoopState t)
  have h2' : ∀ i (h : i < ns.length), (ns.get ⟨i, h⟩).pageNumber = 3 + i := by
    intro i h
    rw [h2 i h, hpage]
  refine ⟨ns, by simpa [initLoopState] using h1, h2', ?_⟩
  intro p hp2
  rw [List.mem_iff_get] at hp2
  obtain ⟨⟨i, hi⟩, rfl⟩ := hp2
  rw [h2' i hi]
  omega

theorem c7_resume_continues_at_page_three_witness :
    sessC7.status = SessionStatus.PAUSED_CAPTCHA ∧
    taskC7.pages.length = 2 ∧
    (resumeSession sessC7).status = SessionStatus.RUNNING ∧
    (initLoopState taskC7).page = 3 := by
  obtain ⟨ha, hb, _⟩ := c7_resume_continues_at_page_three sessC7 taskC7 10 [] rfl rfl
  exact ⟨rfl, rfl, ha, hb⟩

lemma extract_aux (off : Nat) : ∀ (items : List RawItem) (acc : List OrganicEntry),
    ((items.foldl (fun a it =>
        a ++ [{ rank := off + a.length + 1, title := it.title, url := it.url,
                snippet := it.snippet }]) acc).map (fun r => r.rank))
      = acc.map (fun r => r.rank) ++ List.range' (off + acc.length + 1) items.length := by
  intro items
  induction items with
  | nil => intro acc; simp
  | cons it rest ih =>
    intro acc
    rw [List.foldl_cons, ih]
    simp only [List.map_append, List.length_append, List.map_cons, List.map_nil,
      List.length_cons, List.length_nil, List.range'_succ, List.append_assoc,
      List.singleton_append]
    simp [Nat.add_assoc]

lemma extract_ranks (off : Nat) (items : List RawItem) :
    (extractOrganicList off items).map (fun r => r.rank)
      = List.range' (off + 1) items.length := by
  have h := extract_aux off items []
  simpa [extractOrganicList] using h

lemma extract_length (off : Nat) (items : List RawItem) :
    (extractOrganicList off items).length = items.length := by
  have h := congrArg List.length (extract_ranks off items)
  simpa using h

lemma scrapeData_first (tab : TabState) (q : String) (items : List RawItem) :
    scrapeData tab q true items
      = ({ lastQuery := some q, organicCount := some items.length },
         extractOrganicList 0 items) := by
  simp [scrapeData, extract_length]

lemma scrapeData_next (c : Nat) (q : String) (items : List RawItem) :
    scrapeData { lastQuery := some q, organicCount := some c } q false items
      = ({ lastQuery := some q, organicCount := some (c + items.length) },
         extractOrganicList c items) := by
  simp [scrapeData, extract_length]

lemma scrapeSequence_aux (q : String) : ∀ (pages : List (List RawItem)) (c : Nat),
    ((scrapeSequence { lastQuery := some q, organicCount := some c } q false
        pages).flatten).map (fun r => r.rank)
      = List.range' (c + 1) ((pages.map List.length).sum) := by
  intro pages
  induction pages with
  | nil => intro c; simp [scrapeSequence]
  | cons items rest ih =>
    intro c
    rw [scrapeSequence, scrapeData_next]
    rw [List.flatten_cons, List.map_append]
    have hfst : ((({ lastQuery := some q, organicCount := some (c + items.length) }
        : TabState), extractOrganicList c items)).1
        = ({ lastQuery := some q, organicCount := some (c + items.length) } : TabState) := rfl
    rw [hfst, extract_ranks, ih (c + items.length)]
    have h := List.range'_append (c + 1) items.length ((rest.map List.length).sum) 1
    simp only [one_mul] at h
    rw [show c + items.length + 1 = c + 1 + items.length by omega, h]
    rw [List.map_cons, List.sum_cons, Nat.add_comm ((rest.map List.length).sum) items.length]

lemma scrapeSequence_ranks (tab : TabState) (q : String) (pages : List (List RawItem)) :
    ((scrapeSequence tab q true pages).flatten).map (fun r => r.rank)
      = List.range' 1 ((pages.map List.length).sum) := by
  cases pages with
  | nil => simp [scrapeSequence]
  | cons items rest =>
    rw [scrapeSequence, scrapeData_first]
    rw [List.flatten_cons, List.map_append]
    have hfst : ((({ lastQuery := some q, organicCount := some items.length }
        : TabState), extractOrganicList 0 items)).1
        = ({ lastQuery := some q, organicCount := some items.length } : TabState) := rfl
    rw [hfst, extract_ranks, scrapeSequence_aux q rest items.length]
    have h := List.range'_append 1 items.length ((rest.map List.length).sum) 1
    simp only [one_mul] at h
    rw [show (0 : Nat) + 1 = 1 by rfl,
      show items.length + 1 = 1 + items.length by omega, h]
    rw [List.map_cons, List.sum_cons, Nat.add_comm ((rest.map List.length).sum) items.length]

lemma flatMap_map_rank : ∀ (ps : List Page),
    ps.flatMap (fun p => p.results.organic.map (fun r => r.rank))
      = (ps.flatMap (fun p => p.results.organic)).map (fun r => r.rank) := by
  intro ps
  induction ps with
  | nil => simp
  | cons p ps ih => simp [ih]

lemma flatMap_envOrganic_tabRun (tab : TabState) (q : String)
    (pages : List (List RawItem)) :
    (tabRunEnvs tab q pages).flatMap envOrganic
      = (scrapeSequence tab q true pages).flatten := by
  rw [tabRunEnvs]
  generalize scrapeSequence tab q true pages = orgs
  induction orgs with
  | nil => simp
  | cons o os ih =>
    simp only [List.map_cons, List.flatMap_cons, List.flatten_cons, ih]
    rfl

/-- C8 counterexample: the rank offset lives in the tab's
sessionStorage (content.js 206-216) and the startRank sent by the
background (background.js 610) is ignored, so the fresh tab opened
after a CAPTCHA resume restarts ranks at 1: a task whose first run
recorded ranks 1,2,3 and then hit a CAPTCHA records rank 3 again for
the new result of the re-scraped page, refuting strict rank increase
across pages fetched after a resume. -/
theorem c8_counterexample_rank_reset :
    (runLoop 10 [envC8a] (initLoopState (freshTask "q8"))).2 = LoopExit.captchaHandoff ∧
    ¬ strictlyIncreasing (taskRanks taskC8Final) := by
  decide

/-- C8 amended: within a single uninterrupted run of the pagination
loop in one tab — where each page's extraction continues from the
tab's stored running count of extracted organic results — the ranks of
the organic entries recorded across the task's pages are strictly
increasing in recording order; the guarantee is per tab run, not
across a CAPTCHA resume, because the fresh tab opened on resume
restarts the stored offset at 0. -/
theorem c8_amended_ranks_increase_per_run (quota : Nat) (t : Task) (tab : TabState)
    (q : String) (pages : List (List RawItem))
    (hp : t.pages = []) :
    strictlyIncreasing
      (taskRanks ((runLoop quota (tabRunEnvs tab q pages) (initLoopState t)).1).task) := by
  obtain ⟨ns, h1, _, h3⟩ := runLoop_new_pages quota (tabRunEnvs tab q pages) (initLoopState t)
  have htr : taskRanks ((runLoop quota (tabRunEnvs tab q pages) (initLoopState t)).1).task
      = (ns.flatMap (fun p => p.results.organic)).map (fun r => r.rank) := by
    rw [taskRanks, h1]
    have hini : (initLoopState t).task.pages = [] := hp
    rw [hini, List.nil_append, flatMap_map_rank]
  rw [htr]
  have hsub := List.Sublist.map (fun r => r.rank) h3
  rw [flatMap_envOrganic_tabRun, scrapeSequence_ranks] at hsub
  exact List.Pairwise.sublist hsub (List.pairwise_lt_range' 1 _)

theorem c8_amended_ranks_increase_per_run_witness :
    (freshTask "w8").pages = [] ∧
    strictlyIncreasing
      (taskRanks ((runLoop 10 envsW8 (initLoopState (freshTask "w8"))).1).task) :=
  ⟨rfl, c8_amended_ranks_increase_per_run 10 (freshTask "w8") freshTab "w8"
    [itemsP1, itemsP2] rfl⟩

lemma idleLoop_min : ∀ (n k : Nat) (pausedAt : Nat → Bool),
    (∀ j, pausedAt j = true ↔ k ≤ j) →
    idleLoop pausedAt n = min k n := by
  intro n
  induction n with
  | zero =>
    intro k p hp
    simp [idleLoop]
  | succ n ih =>
    intro k p hp
    cases k with
    | zero =>
      have h0 : p 0 = true := (hp 0).mpr (Nat.le_refl 0)
      simp [idleLoop, h0]
    | succ k2 =>
      have h0 : p 0 = false := by
        cases hpp : p 0 with
        | false => rfl
        | true => exact absurd ((hp 0).mp hpp) (by omega)
      simp only [idleLoop, h0, Bool.false_eq_true, if_false]
      rw [ih k2 (fun i => p (i + 1)) (fun j => by rw [hp (j + 1)]; omega)]
      omega

/-- C9: the inter-page idle wait polls the pause flag once per 500 ms
sub-interval, so if the pause flag becomes set at poll k it sleeps
exactly min k n of its n sub-intervals — the pause is observed at the
first poll after it is set, within one sub-interval; and with the
session still paused at the next loop-top isPaused check, the
pagination loop exits immediately with its state unchanged: no further
page is fetched or recorded until the session is resumed. -/
theorem c9_pause_during_idle (pausedAt : Nat → Bool) (k n quota : Nat)
    (st : LoopState) (e : LoopEnv) (es : List LoopEnv)
    (hk : ∀ j, pausedAt j = true ↔ k ≤ j)
    (hA : e.pausedA = true) :
    idleLoop pausedAt n = min k n ∧
    (runLoop quota (e :: es) st).1 = st ∧
    ((runLoop quota (e :: es) st).2 = LoopExit.pausedBreak ∨
      (runLoop quota (e :: es) st).2 = LoopExit.guardStop) := by
  refine ⟨idleLoop_min n k pausedAt hk, ?_⟩
  by_cases hguard : st.collected < quota ∧ st.page ≤ MAX_PAGES
  · rw [runLoop_cons_eq quota e es st hguard, processPage_pausedA quota st e hA]
    exact ⟨rfl, Or.inl rfl⟩
  · rw [runLoop_cons_stop quota e es st hguard]
    exact ⟨rfl, Or.inr rfl⟩

theorem c9_pause_during_idle_witness :
    envC9.pausedA = true ∧
    idleLoop pausedAtW 4 = 2 ∧
    (runLoop 5 [envC9] (initLoopState (freshTask "q9"))).1
      = initLoopState (freshTask "q9") := by
  obtain ⟨h1, h2, _⟩ := c9_pause_during_idle pausedAtW 2 4 5
    (initLoopState (freshTask "q9")) envC9 []
    (fun j => by simp [pausedAtW]) rfl
  refine ⟨rfl, ?_, h2⟩
  rw [h1]
  decide

end RAT
